import Mathlib

/-
Verification of the problem-details extension layer:
the JSON-Pointer builder `build_from_pydantic_error`, the status-code
body gate `is_body_allowed_for_status_code`, the HTTP exception handler
and the `ErrorMiddleware` catch-all, shallowly embedded from
fastapi/utils.py, fastapi/exception_handlers.py and
fastapi/middleware/error.py.  Python strings are modelled as `List Char`,
Python ints as `Int`, raising operations return `Except PyError`.
-/

namespace ProblemDetails

/-- A Python error kind that the embedded code could raise. -/
inductive PyError
  | indexError
  | valueError
deriving DecidableEq

/-- A pydantic `loc` segment: in practice a string, an int, `None` or a
bool (any Python object can occur; these cover every case the spec and
tests exercise, and all are rendered through `str`). -/
inductive Segment
  | int (n : Int)
  | str (s : List Char)
  | none
  | bool (b : Bool)
deriving DecidableEq

/-- Digit accumulation for `natDigits`, structurally recursive on a fuel
argument so that it reduces inside the kernel; `fuel = n + 1` always
suffices since `n / 10 < n` for `n ≥ 10`. -/
def natDigitsGo : Nat → Nat → List Char → List Char
  | 0, _, acc => acc
  | fuel + 1, n, acc =>
      if n < 10 then Char.ofNat (48 + n) :: acc
      else natDigitsGo fuel (n / 10) (Char.ofNat (48 + n % 10) :: acc)

/-- Decimal digits of a natural number, most significant first:
the model of Python `str` on a non-negative int. -/
def natDigits (n : Nat) : List Char :=
  natDigitsGo (n + 1) n []

/-- Python `str` of an int: base-10 digits with a leading minus sign for
negative values. -/
def pyIntStr (n : Int) : List Char :=
  if n < 0 then '-' :: natDigits n.natAbs else natDigits n.natAbs

/-- Python `str` of a segment: ints render in base 10, strings render as
themselves, `None` renders as "None", bools render as "True"/"False". -/
def pyStr : Segment → List Char
  | Segment.int n => pyIntStr n
  | Segment.str s => s
  | Segment.none => "None".toList
  | Segment.bool b => if b then "True".toList else "False".toList

/-- Python `str.replace` with a single-character pattern: every
occurrence of `c` is replaced by `r`, left to right. -/
def replaceChar (c : Char) (r : List Char) : List Char → List Char
  | [] => []
  | a :: rest =>
      if a = c then r ++ replaceChar c r rest else a :: replaceChar c r rest

/-- The local `_escape` of `build_from_pydantic_error`:
`segment.replace("~", "~0").replace("/", "~1")` — tilde first, then
slash. -/
def escapeSegment (s : List Char) : List Char :=
  replaceChar '/' ['~', '1'] (replaceChar '~' ['~', '0'] s)

/-- The source markers `{"body", "json", "value"}`. -/
def srcMarkers : List (List Char) := ["body".toList, "json".toList, "value".toList]

/-- `start_index = 1 if (isinstance(loc[0], str) and loc[0] in src_markers) else 0`. -/
def startIndex (loc : List Segment) : Nat :=
  match loc with
  | Segment.str s :: _ => if s ∈ srcMarkers then 1 else 0
  | _ => 0

/-- The segments the loop iterates over: `loc[start_index:]`. -/
def remainingSegments (loc : List Segment) : List Segment :=
  loc.drop (startIndex loc)

/-- The `parts` list built by the loop: each remaining segment is
stringified and escaped, in order. -/
def escapedParts (loc : List Segment) : List (List Char) :=
  (remainingSegments loc).map (fun seg => escapeSegment (pyStr seg))

/-- `MAX_POINTER_LENGTH = 2000`. -/
def MAX_POINTER_LENGTH : Nat := 2000

/-- The pointer before truncation: `"/" + "/".join(parts)`, or the empty
string when no parts remain. -/
def rawPointer (loc : List Segment) : List Char :=
  if escapedParts loc = [] then []
  else '/' :: List.intercalate ['/'] (escapedParts loc)

/-- `build_from_pydantic_error` from fastapi/utils.py: strip a leading
source marker, escape and join the rest, truncate past 2000 chars. -/
def build_from_pydantic_error (loc : List Segment) : List Char :=
  if loc = [] then []
  else
    let parts := escapedParts loc
    if parts = [] then []
    else
      let pointer := '/' :: List.intercalate ['/'] parts
      if MAX_POINTER_LENGTH < pointer.length then
        pointer.take MAX_POINTER_LENGTH ++ "...".toList
      else pointer

/-- The same function with every possibly-raising operation made
explicit: the only such operation is the subscript `loc[0]`, which in
Python raises IndexError on an empty sequence (it is guarded by the
early return `if not loc`). -/
def build_from_pydantic_error_exc (loc : List Segment) :
    Except PyError (List Char) :=
  if loc = [] then Except.ok []
  else
    match loc.get? 0 with
    | Option.none => Except.error PyError.indexError
    | Option.some first =>
      let startIdx : Nat :=
        match first with
        | Segment.str s => if s ∈ srcMarkers then 1 else 0
        | _ => 0
      let parts := (loc.drop startIdx).map (fun seg => escapeSegment (pyStr seg))
      if parts = [] then Except.ok []
      else
        let pointer := '/' :: List.intercalate ['/'] parts
        if MAX_POINTER_LENGTH < pointer.length then
          Except.ok (pointer.take MAX_POINTER_LENGTH ++ "...".toList)
        else Except.ok pointer

/-- The same function with the input sequence threaded as mutable state:
each operation the code performs on `loc` (truth test, subscript,
slice-iteration) returns the sequence it leaves behind.  The code only
reads, so every operation passes the sequence through unchanged. -/
def seqTruthTest (s : List Segment) : Bool × List Segment :=
  (!s.isEmpty, s)

def seqSubscript (s : List Segment) (i : Nat) : Option Segment × List Segment :=
  (s.get? i, s)

def seqSliceFrom (s : List Segment) (i : Nat) : List Segment × List Segment :=
  (s.drop i, s)

def build_from_pydantic_error_st (loc : List Segment) :
    List Char × List Segment :=
  let p1 := seqTruthTest loc
  if !p1.1 then ([], p1.2)
  else
    let p2 := seqSubscript p1.2 0
    let startIdx : Nat :=
      match p2.1 with
      | Option.some (Segment.str s) => if s ∈ srcMarkers then 1 else 0
      | _ => 0
    let p3 := seqSliceFrom p2.2 startIdx
    let parts := p3.1.map (fun seg => escapeSegment (pyStr seg))
    if parts = [] then ([], p3.2)
    else
      let pointer := '/' :: List.intercalate ['/'] parts
      if MAX_POINTER_LENGTH < pointer.length then
        (pointer.take MAX_POINTER_LENGTH ++ "...".toList, p3.2)
      else (pointer, p3.2)

/-- The argument of `is_body_allowed_for_status_code`:
`Union[int, str, None]`. -/
inductive StatusCode
  | none
  | str (s : List Char)
  | int (n : Int)
deriving DecidableEq

/-- The OpenAPI patterned-field strings recognised before any numeric
conversion. -/
def openapiPatterns : List (List Char) :=
  ["default".toList, "1XX".toList, "2XX".toList, "3XX".toList,
   "4XX".toList, "5XX".toList]

/-- One decimal digit, or failure. -/
def digitVal (c : Char) : Option Nat :=
  if '0' ≤ c ∧ c ≤ '9' then Option.some (c.toNat - 48) else Option.none

/-- A nonempty all-digit string read as a natural number. -/
def parseNatDigits (s : List Char) : Option Nat :=
  if s = [] then Option.none
  else
    s.foldl
      (fun acc c =>
        match acc, digitVal c with
        | Option.some a, Option.some d => Option.some (a * 10 + d)
        | _, _ => Option.none)
      (Option.some 0)

/-- Python `int(s)` on a string: optional sign then decimal digits,
ValueError otherwise. -/
def pyIntOfStr (s : List Char) : Except PyError Int :=
  match s with
  | '-' :: rest =>
      match parseNatDigits rest with
      | Option.some n => Except.ok (-(n : Int))
      | Option.none => Except.error PyError.valueError
  | '+' :: rest =>
      match parseNatDigits rest with
      | Option.some n => Except.ok (n : Int)
      | Option.none => Except.error PyError.valueError
  | _ =>
      match parseNatDigits s with
      | Option.some n => Except.ok (n : Int)
      | Option.none => Except.error PyError.valueError

/-- `is_body_allowed_for_status_code` from fastapi/utils.py: `None` and
the OpenAPI pattern strings allow a body; otherwise the code is
converted with `int` and a body is allowed unless the code is below 200
or one of 204, 205, 304. -/
def is_body_allowed_for_status_code (status_code : StatusCode) :
    Except PyError Bool :=
  match status_code with
  | StatusCode.none => Except.ok true
  | StatusCode.str s =>
      if s ∈ openapiPatterns then Except.ok true
      else
        match pyIntOfStr s with
        | Except.ok n =>
            Except.ok (decide (¬(n < 200 ∨ n = 204 ∨ n = 205 ∨ n = 304)))
        | Except.error e => Except.error e
  | StatusCode.int n =>
      Except.ok (decide (¬(n < 200 ∨ n = 204 ∨ n = 205 ∨ n = 304)))

/-- A Starlette `HTTPException` as the handler sees it: a numeric status
code, a detail payload and optional headers. -/
structure HTTPException where
  status_code : Int
  detail : List Char
  headers : Option (List (List Char × List Char))
deriving DecidableEq

/-- The response emitted by `http_exception_handler`: either a bare
`Response(status_code=..., headers=...)` with no body, or a
`JSONResponse({"detail": ...}, status_code=..., headers=...)`. -/
inductive HandlerResponse
  | noBody (status_code : Int) (headers : Option (List (List Char × List Char)))
  | jsonBody (detail : List Char) (status_code : Int)
      (headers : Option (List (List Char × List Char)))
deriving DecidableEq

/-- `http_exception_handler` from fastapi/exception_handlers.py. -/
def http_exception_handler (exc : HTTPException) :
    Except PyError HandlerResponse :=
  match is_body_allowed_for_status_code (StatusCode.int exc.status_code) with
  | Except.error e => Except.error e
  | Except.ok allowed =>
      if !allowed then Except.ok (HandlerResponse.noBody exc.status_code exc.headers)
      else Except.ok (HandlerResponse.jsonBody exc.detail exc.status_code exc.headers)

/-- The exception categories `ErrorMiddleware` distinguishes: Starlette
`HTTPException`, FastAPI `RequestValidationError`, and everything else
(carrying its `str(exc)` message). -/
inductive Exc
  | http (e : HTTPException)
  | validation (errs : List Char)
  | other (msg : List Char)
deriving DecidableEq

/-- ASGI scope types relevant to the middleware dispatch. -/
inductive ScopeType
  | http
  | websocket
  | lifespan
deriving DecidableEq

/-- An RFC 7807 problem-details body as built by the middleware. -/
structure Problem where
  type_ : List Char
  title : List Char
  status : Int
  detail : List Char
deriving DecidableEq

/-- What one middleware invocation does: the wrapped app completed
normally, an exception propagated out of the middleware, or a problem
response was sent. -/
inductive MwOutcome
  | completed
  | raised (e : Exc)
  | problemSent (p : Problem) (status_code : Int) (media_type : List Char)
deriving DecidableEq

/-- `ErrorMiddleware.__call__` from fastapi/middleware/error.py,
abstracted over what the wrapped app does (`appResult`): non-HTTP scopes
are passed through with no interception; on HTTP scopes, Starlette
`HTTPException` and `RequestValidationError` are re-raised, and any
other exception is logged once (the second component counts
`logger.exception` calls) and answered with a 500 problem response whose
detail is generic, or `str(exc)` in debug mode. -/
def errorMiddleware (debug : Bool) (scopeType : ScopeType)
    (appResult : Except Exc Unit) : MwOutcome × Nat :=
  if scopeType ≠ ScopeType.http then
    match appResult with
    | Except.ok _ => (MwOutcome.completed, 0)
    | Except.error e => (MwOutcome.raised e, 0)
  else
    match appResult with
    | Except.ok _ => (MwOutcome.completed, 0)
    | Except.error (Exc.http h) => (MwOutcome.raised (Exc.http h), 0)
    | Except.error (Exc.validation v) => (MwOutcome.raised (Exc.validation v), 0)
    | Except.error (Exc.other msg) =>
        let problem : Problem :=
          { type_ := "about:blank".toList
            title := "Internal Server Error".toList
            status := 500
            detail := if debug then msg else "Internal Server Error".toList }
        (MwOutcome.problemSent problem 500 "application/problem+json".toList, 1)

/-- Concrete input exercising escaping: `("body", "a~b", "c/d")`. -/
def demoLoc : List Segment :=
  [Segment.str "body".toList, Segment.str "a~b".toList, Segment.str "c/d".toList]

/-- Concrete input whose pointer exceeds the 2000-character bound. -/
def longLoc : List Segment := [Segment.str (List.replicate 2500 'a')]

/-- Concrete input with a short pointer. -/
def shortLoc : List Segment := [Segment.str "x".toList]

/-- A concrete 204 No Content exception. -/
def excNoContent : HTTPException :=
  { status_code := 204, detail := "gone".toList, headers := Option.none }

/-- A concrete 404 exception. -/
def excNotFound : HTTPException :=
  { status_code := 404, detail := "missing".toList, headers := Option.none }

theorem replaceChar_self_not_mem (c : Char) (r : List Char) (hc : c ∉ r) :
    ∀ l : List Char, c ∉ replaceChar c r l := by
  intro l
  induction l with
  | nil => simp [replaceChar]
  | cons a rest ih =>
    by_cases hac : a = c
    · simp only [replaceChar, if_pos hac]
      intro hmem
      rcases List.mem_append.mp hmem with h1 | h2
      · exact hc h1
      · exact ih h2
    · simp only [replaceChar, if_neg hac]
      intro hmem
      rcases List.mem_cons.mp hmem with h1 | h2
      · exact hac h1.symm
      · exact ih h2

theorem replaceChar_eq_of_not_mem (c : Char) (r : List Char) :
    ∀ l : List Char, c ∉ l → replaceChar c r l = l := by
  intro l
  induction l with
  | nil => intro _; rfl
  | cons a rest ih =>
    intro hmem
    have hac : a ≠ c := fun h => hmem (h ▸ List.mem_cons_self a rest)
    simp only [replaceChar, if_neg hac]
    rw [ih (fun h => hmem (List.mem_cons_of_mem a h))]

theorem escapeSegment_no_slash (s : List Char) : '/' ∉ escapeSegment s :=
  replaceChar_self_not_mem '/' ['~', '1'] (by decide) _

theorem escapeSegment_eq_of_no_special (l : List Char)
    (h1 : '~' ∉ l) (h2 : '/' ∉ l) : escapeSegment l = l := by
  rw [escapeSegment, replaceChar_eq_of_not_mem '~' _ l h1,
    replaceChar_eq_of_not_mem '/' _ l h2]

theorem natDigitsGo_mem_digit :
    ∀ (fuel n : Nat) (acc : List Char) (c : Char),
      c ∈ natDigitsGo fuel n acc → ('0' ≤ c ∧ c ≤ '9') ∨ c ∈ acc := by
  intro fuel
  induction fuel with
  | zero => intro n acc c h; exact Or.inr h
  | succ f ih =>
    intro n acc c h
    rw [natDigitsGo] at h
    by_cases hn : n < 10
    · rw [if_pos hn] at h
      rcases List.mem_cons.mp h with h1 | h2
      · left; subst h1; interval_cases n <;> decide
      · right; exact h2
    · rw [if_neg hn] at h
      rcases ih (n / 10) (Char.ofNat (48 + n % 10) :: acc) c h with h1 | h2
      · left; exact h1
      · rcases List.mem_cons.mp h2 with h3 | h4
        · left
          subst h3
          have hm : n % 10 < 10 := Nat.mod_lt _ (by omega)
          generalize n % 10 = m at hm ⊢
          interval_cases m <;> decide
        · right; exact h4

theorem natDigits_mem_digit (n : Nat) (c : Char) (h : c ∈ natDigits n) :
    '0' ≤ c ∧ c ≤ '9' := by
  rcases natDigitsGo_mem_digit (n + 1) n [] c h with h1 | h2
  · exact h1
  · cases h2

theorem pyIntStr_mem_digit_or_minus (n : Int) (c : Char) (h : c ∈ pyIntStr n) :
    ('0' ≤ c ∧ c ≤ '9') ∨ c = '-' := by
  rw [pyIntStr] at h
  by_cases hn : n < 0
  · rw [if_pos hn] at h
    rcases List.mem_cons.mp h with h1 | h2
    · right; exact h1
    · left; exact natDigits_mem_digit _ _ h2
  · rw [if_neg hn] at h
    left; exact natDigits_mem_digit _ _ h

theorem escapeSegment_pyIntStr (n : Int) :
    escapeSegment (pyIntStr n) = pyIntStr n := by
  apply escapeSegment_eq_of_no_special
  · intro h
    rcases pyIntStr_mem_digit_or_minus n '~' h with ⟨_, h2⟩ | h3
    · exact absurd h2 (by decide)
    · exact absurd h3 (by decide)
  · intro h
    rcases pyIntStr_mem_digit_or_minus n '/' h with ⟨h1, _⟩ | h3
    · exact absurd h1 (by decide)
    · exact absurd h3 (by decide)

theorem escapedParts_eq_nil_iff (loc : List Segment) :
    escapedParts loc = [] ↔ remainingSegments loc = [] := by
  rw [escapedParts, List.map_eq_nil_iff]

theorem build_eq_truncate (loc : List Segment) :
    build_from_pydantic_error loc =
      (if MAX_POINTER_LENGTH < (rawPointer loc).length then
        (rawPointer loc).take MAX_POINTER_LENGTH ++ "...".toList
      else rawPointer loc) := by
  by_cases hloc : loc = []
  · subst hloc; rfl
  · by_cases hp : escapedParts loc = []
    · simp [build_from_pydantic_error, rawPointer, hloc, hp, MAX_POINTER_LENGTH]
    · simp only [build_from_pydantic_error, if_neg hloc, rawPointer, if_neg hp]

theorem escapeSegment_replicate_a (n : Nat) :
    escapeSegment (List.replicate n 'a') = List.replicate n 'a' := by
  apply escapeSegment_eq_of_no_special <;>
    · intro h
      have := List.eq_of_mem_replicate h
      exact absurd this (by decide)

theorem intercalate_singleton_chars (sep x : List Char) :
    List.intercalate sep [x] = x := by
  rw [List.intercalate, List.intersperse_singleton, List.flatten_cons,
    List.flatten_nil, List.append_nil]

theorem rawPointer_single (s : List Char) (hs : s ∉ srcMarkers) :
    rawPointer [Segment.str s] = '/' :: escapeSegment s := by
  have hstart : startIndex [Segment.str s] = 0 := by
    rw [show startIndex [Segment.str s] =
        (if s ∈ srcMarkers then 1 else 0) from rfl, if_neg hs]
  have hparts : escapedParts [Segment.str s] = [escapeSegment s] := by
    rw [escapedParts, remainingSegments, hstart]; rfl
  rw [rawPointer, if_neg (by rw [hparts]; exact List.cons_ne_nil _ _), hparts,
    intercalate_singleton_chars]

theorem rawPointer_longLoc : rawPointer longLoc = '/' :: List.replicate 2500 'a' := by
  rw [show longLoc = [Segment.str (List.replicate 2500 'a')] from rfl,
    rawPointer_single _ (by decide), escapeSegment_replicate_a]

/-- C1: for every `loc` with segments left after source-marker removal,
the pointer (before truncation) is the escaped segments joined with '/'
behind a leading '/', each segment escaped by replacing '~' with "~0"
and then '/' with "~1", so no literal '/' survives inside an escaped
unit; the returned string is that pointer, truncated only past the
length bound. -/
theorem C1_pointer_escape_join (loc : List Segment)
    (h : remainingSegments loc ≠ []) :
    rawPointer loc =
      '/' :: List.intercalate ['/']
        ((remainingSegments loc).map (fun seg => escapeSegment (pyStr seg)))
    ∧ (∀ seg ∈ remainingSegments loc,
        escapeSegment (pyStr seg) =
          replaceChar '/' ['~', '1'] (replaceChar '~' ['~', '0'] (pyStr seg))
        ∧ '/' ∉ escapeSegment (pyStr seg))
    ∧ build_from_pydantic_error loc =
        (if MAX_POINTER_LENGTH < (rawPointer loc).length then
          (rawPointer loc).take MAX_POINTER_LENGTH ++ "...".toList
        else rawPointer loc) := by
  refine ⟨?_, ?_, build_eq_truncate loc⟩
  · rw [rawPointer, if_neg ((not_congr (escapedParts_eq_nil_iff loc)).mpr h)]
    rfl
  · intro seg _
    exact ⟨rfl, escapeSegment_no_slash (pyStr seg)⟩

/-- C1 witness: the theorem applied to `("body", "a~b", "c/d")`, whose
pointer is "/a~0b/c~1d" and whose escaped "c/d" unit has no slash. -/
theorem C1_pointer_escape_join_witness :
    rawPointer demoLoc = "/a~0b/c~1d".toList
    ∧ '/' ∉ escapeSegment (pyStr (Segment.str "c/d".toList))
    ∧ build_from_pydantic_error demoLoc = "/a~0b/c~1d".toList := by
  have h := C1_pointer_escape_join demoLoc (by decide)
  refine ⟨?_, (h.2.1 (Segment.str "c/d".toList) (by decide)).2, ?_⟩
  · rw [h.1]; rfl
  · rw [h.2.2]; rfl

/-- C2: the empty sequence and a sequence holding only a source marker
produce the empty string (not "/"); the marker is dropped exactly when
it is the first segment, and a marker string in a later position is kept
as an ordinary segment. -/
theorem C2_source_marker_handling :
    build_from_pydantic_error [] = []
    ∧ (∀ m ∈ srcMarkers, build_from_pydantic_error [Segment.str m] = [])
    ∧ (∀ (first : Segment) (rest : List Segment),
        remainingSegments (first :: rest) =
          (match first with
            | Segment.str s => if s ∈ srcMarkers then rest else first :: rest
            | _ => first :: rest))
    ∧ build_from_pydantic_error
        [Segment.str "user".toList, Segment.str "body".toList] =
      "/user/body".toList := by
  refine ⟨rfl, ?_, ?_, rfl⟩
  · intro m hm
    fin_cases hm <;> rfl
  · intro first rest
    cases first with
    | str s =>
      by_cases hs : s ∈ srcMarkers <;>
        simp [remainingSegments, startIndex, hs]
    | int n => rfl
    | none => rfl
    | bool b => rfl

/-- C2 witness: the theorem applied at the marker "json" and at a
first-position non-marker. -/
theorem C2_source_marker_handling_witness :
    build_from_pydantic_error [Segment.str "json".toList] = []
    ∧ remainingSegments [Segment.str "user".toList, Segment.str "body".toList] =
        [Segment.str "user".toList, Segment.str "body".toList] := by
  refine ⟨C2_source_marker_handling.2.1 "json".toList (by decide), ?_⟩
  rw [C2_source_marker_handling.2.2.1 (Segment.str "user".toList)
    [Segment.str "body".toList]]
  decide

/-- C3: a pointer longer than 2000 characters is returned as exactly its
first 2000 characters followed by "...", total length 2003; a pointer of
at most 2000 characters is returned unchanged. -/
theorem C3_pointer_truncation (loc : List Segment) :
    (MAX_POINTER_LENGTH < (rawPointer loc).length →
      build_from_pydantic_error loc =
        (rawPointer loc).take MAX_POINTER_LENGTH ++ "...".toList
      ∧ (build_from_pydantic_error loc).length = 2003)
    ∧ ((rawPointer loc).length ≤ MAX_POINTER_LENGTH →
      build_from_pydantic_error loc = rawPointer loc) := by
  constructor
  · intro hlen
    have hb : build_from_pydantic_error loc =
        (rawPointer loc).take MAX_POINTER_LENGTH ++ "...".toList := by
      rw [build_eq_truncate loc, if_pos hlen]
    refine ⟨hb, ?_⟩
    rw [hb, List.length_append, List.length_take]
    have h3 : ("...".toList).length = 3 := rfl
    rw [h3]
    rw [MAX_POINTER_LENGTH] at hlen ⊢
    omega
  · intro hlen
    rw [build_eq_truncate loc, if_neg (not_lt.mpr hlen)]

/-- C3 witness: the theorem applied to a 2501-character pointer (result
has length 2003) and to a short pointer (returned unchanged). -/
theorem C3_pointer_truncation_witness :
    (build_from_pydantic_error longLoc =
        (rawPointer longLoc).take MAX_POINTER_LENGTH ++ "...".toList
      ∧ (build_from_pydantic_error longLoc).length = 2003)
    ∧ build_from_pydantic_error shortLoc = rawPointer shortLoc := by
  constructor
  · refine (C3_pointer_truncation longLoc).1 ?_
    have hlen : (rawPointer longLoc).length = 2501 := by
      rw [rawPointer_longLoc, List.length_cons, List.length_replicate]
    rw [hlen, MAX_POINTER_LENGTH]
    omega
  · exact (C3_pointer_truncation shortLoc).2 (by decide)

/-- C4: integer segments render as base-10 digit strings (every
character a decimal digit or the leading minus, left unchanged by
escaping), `None` renders as "None" and `True` renders as "True", and
these text forms appear verbatim in the built pointer. -/
theorem C4_segment_rendering (n : Int) :
    pyStr (Segment.int n) = pyIntStr n
    ∧ (∀ c ∈ pyIntStr n, ('0' ≤ c ∧ c ≤ '9') ∨ c = '-')
    ∧ escapeSegment (pyStr (Segment.int n)) = pyIntStr n
    ∧ pyStr Segment.none = "None".toList
    ∧ pyStr (Segment.bool true) = "True".toList
    ∧ rawPointer
        [Segment.str "body".toList, Segment.int n, Segment.none,
          Segment.bool true] =
      ('/' :: pyIntStr n) ++ "/None/True".toList := by
  refine ⟨rfl, pyIntStr_mem_digit_or_minus n, escapeSegment_pyIntStr n, rfl, rfl, ?_⟩
  have hparts : escapedParts
      [Segment.str "body".toList, Segment.int n, Segment.none,
        Segment.bool true] =
      [pyIntStr n, "None".toList, "True".toList] := by
    rw [escapedParts]
    have hrem : remainingSegments
        [Segment.str "body".toList, Segment.int n, Segment.none,
          Segment.bool true] =
        [Segment.int n, Segment.none, Segment.bool true] := rfl
    rw [hrem]
    simp only [List.map_cons, List.map_nil, pyStr]
    rw [escapeSegment_pyIntStr n]
    rfl
  rw [rawPointer, if_neg (by rw [hparts]; exact List.cons_ne_nil _ _), hparts]
  simp [List.intercalate]

/-- C4 witness: the theorem applied at n = -12: the rendered "-12",
"None" and "True" appear verbatim in the built pointer. -/
theorem C4_segment_rendering_witness :
    (('0' ≤ '1' ∧ '1' ≤ '9') ∨ '1' = '-')
    ∧ rawPointer
        [Segment.str "body".toList, Segment.int (-12), Segment.none,
          Segment.bool true] =
      "/-12/None/True".toList := by
  have h := C4_segment_rendering (-12)
  refine ⟨h.2.1 '1' (by decide), ?_⟩
  rw [h.2.2.2.2.2]
  rfl

/-- C5: for every finite input sequence the builder returns a string and
never raises: the exception-explicit embedding always succeeds, with the
same string the pure embedding computes. -/
theorem C5_never_raises (loc : List Segment) :
    build_from_pydantic_error_exc loc =
      Except.ok (build_from_pydantic_error loc) := by
  cases loc with
  | nil => rfl
  | cons a l =>
    cases a <;>
      simp only [build_from_pydantic_error_exc, build_from_pydantic_error,
        escapedParts, remainingSegments, startIndex, List.get?,
        apply_ite (Except.ok : List Char → Except PyError (List Char)),
        if_neg (List.cons_ne_nil _ _)]

/-- C5 witness: the theorem applied to a concrete mixed input. -/
theorem C5_never_raises_witness :
    build_from_pydantic_error_exc
        [Segment.str "json".toList, Segment.int 123, Segment.none,
          Segment.bool true] =
      Except.ok "/123/None/True".toList := by
  rw [C5_never_raises]
  rfl

/-- C6: the input sequence is unchanged by a call: in the embedding that
threads the sequence through every operation the code performs on it,
the sequence coming out equals the sequence going in, and the returned
string is the one the pure embedding computes. -/
theorem C6_input_not_mutated (loc : List Segment) :
    build_from_pydantic_error_st loc = (build_from_pydantic_error loc, loc) := by
  have hpair : ∀ (c : Prop) (inst : Decidable c) (x y : List Char)
      (s : List Segment),
      (if c then (x, s) else (y, s)) = ((if c then x else y), s) := by
    intro c inst x y s
    split <;> rfl
  cases loc with
  | nil => rfl
  | cons a l =>
    cases a <;>
      simp [build_from_pydantic_error_st, build_from_pydantic_error,
        seqTruthTest, seqSubscript, seqSliceFrom, escapedParts,
        remainingSegments, startIndex, hpair]

/-- C7: for an HTTP exception with a valid numeric status code, the body
gate returns false exactly for the 1xx class and 204, 205, 304, and the
handler emits a body-less response exactly for those codes and a JSON
body for all others. -/
theorem C7_status_code_body_gate (exc : HTTPException)
    (h : 100 ≤ exc.status_code) :
    (is_body_allowed_for_status_code (StatusCode.int exc.status_code) =
        Except.ok false ↔
      ((100 ≤ exc.status_code ∧ exc.status_code ≤ 199) ∨ exc.status_code = 204 ∨
        exc.status_code = 205 ∨ exc.status_code = 304))
    ∧ (((100 ≤ exc.status_code ∧ exc.status_code ≤ 199) ∨ exc.status_code = 204 ∨
        exc.status_code = 205 ∨ exc.status_code = 304) →
      http_exception_handler exc =
        Except.ok (HandlerResponse.noBody exc.status_code exc.headers))
    ∧ (¬((100 ≤ exc.status_code ∧ exc.status_code ≤ 199) ∨ exc.status_code = 204 ∨
        exc.status_code = 205 ∨ exc.status_code = 304) →
      http_exception_handler exc =
        Except.ok (HandlerResponse.jsonBody exc.detail exc.status_code
          exc.headers)) := by
  have hgate : is_body_allowed_for_status_code (StatusCode.int exc.status_code) =
      Except.ok (decide (¬(exc.status_code < 200 ∨ exc.status_code = 204 ∨
        exc.status_code = 205 ∨ exc.status_code = 304))) := rfl
  refine ⟨?_, ?_, ?_⟩
  · rw [hgate]
    constructor
    · intro hok
      have := Except.ok.inj hok
      rw [decide_eq_false_iff_not, not_not] at this
      omega
    · intro hcond
      have : (exc.status_code < 200 ∨ exc.status_code = 204 ∨
          exc.status_code = 205 ∨ exc.status_code = 304) := by omega
      rw [decide_eq_false_iff_not.mpr (not_not_intro this)]
  · intro hcond
    have hc : (exc.status_code < 200 ∨ exc.status_code = 204 ∨
        exc.status_code = 205 ∨ exc.status_code = 304) := by omega
    rw [http_exception_handler, hgate,
      decide_eq_false_iff_not.mpr (not_not_intro hc)]
    rfl
  · intro hcond
    have hc : ¬(exc.status_code < 200 ∨ exc.status_code = 204 ∨
        exc.status_code = 205 ∨ exc.status_code = 304) := by omega
    rw [http_exception_handler, hgate, decide_eq_true_eq.mpr hc]
    rfl

/-- C7 witness: the theorem applied to a 204 exception (no body) and a
404 exception (JSON body). -/
theorem C7_status_code_body_gate_witness :
    is_body_allowed_for_status_code (StatusCode.int 204) = Except.ok false
    ∧ http_exception_handler excNoContent =
        Except.ok (HandlerResponse.noBody 204 Option.none)
    ∧ http_exception_handler excNotFound =
        Except.ok (HandlerResponse.jsonBody "missing".toList 404 Option.none) := by
  have h204 := C7_status_code_body_gate excNoContent (by decide)
  have h404 := C7_status_code_body_gate excNotFound (by decide)
  refine ⟨h204.1.mpr (by decide), h204.2.1 (by decide), h404.2.2 (by decide)⟩

/-- C8: on an HTTP request, the catch-all answers any unexpected
exception with a 500 problem-details response; with the debug flag off
its detail is the fixed text "Internal Server Error", identical whatever
the exception message was, and with the debug flag on the detail is the
exception's string form. -/
theorem C8_sanitized_generic_500 (msg : List Char) :
    errorMiddleware false ScopeType.http (Except.error (Exc.other msg)) =
      (MwOutcome.problemSent
        { type_ := "about:blank".toList
          title := "Internal Server Error".toList
          status := 500
          detail := "Internal Server Error".toList }
        500 "application/problem+json".toList, 1)
    ∧ (∀ msg2 : List Char,
        errorMiddleware false ScopeType.http (Except.error (Exc.other msg)) =
          errorMiddleware false ScopeType.http (Except.error (Exc.other msg2)))
    ∧ errorMiddleware true ScopeType.http (Except.error (Exc.other msg)) =
        (MwOutcome.problemSent
          { type_ := "about:blank".toList
            title := "Internal Server Error".toList
            status := 500
            detail := msg }
          500 "application/problem+json".toList, 1) :=
  ⟨rfl, fun _ => rfl, rfl⟩

/-- C9: on an HTTP request the middleware re-raises HTTP exceptions and
request-validation errors unchanged with nothing logged; only any other
exception reaches the catch-all, which logs exactly once and sends the
generic problem response. -/
theorem C9_exception_category_dispatch (e : HTTPException)
    (v msg : List Char) (debug : Bool) :
    errorMiddleware debug ScopeType.http (Except.error (Exc.http e)) =
      (MwOutcome.raised (Exc.http e), 0)
    ∧ errorMiddleware debug ScopeType.http (Except.error (Exc.validation v)) =
        (MwOutcome.raised (Exc.validation v), 0)
    ∧ errorMiddleware debug ScopeType.http (Except.error (Exc.other msg)) =
        (MwOutcome.problemSent
          { type_ := "about:blank".toList
            title := "Internal Server Error".toList
            status := 500
            detail := if debug then msg else "Internal Server Error".toList }
          500 "application/problem+json".toList, 1) :=
  ⟨rfl, rfl, rfl⟩

/-- C10: the body gate returns true on `None` and on each OpenAPI
pattern string without attempting numeric conversion — even though
`int` would fail on those strings, the gate succeeds. -/
theorem C10_none_and_pattern_strings :
    is_body_allowed_for_status_code StatusCode.none = Except.ok true
    ∧ is_body_allowed_for_status_code (StatusCode.str "default".toList) =
        Except.ok true
    ∧ is_body_allowed_for_status_code (StatusCode.str "1XX".toList) =
        Except.ok true
    ∧ is_body_allowed_for_status_code (StatusCode.str "2XX".toList) =
        Except.ok true
    ∧ is_body_allowed_for_status_code (StatusCode.str "3XX".toList) =
        Except.ok true
    ∧ is_body_allowed_for_status_code (StatusCode.str "4XX".toList) =
        Except.ok true
    ∧ is_body_allowed_for_status_code (StatusCode.str "5XX".toList) =
        Except.ok true
    ∧ pyIntOfStr "default".toList = Except.error PyError.valueError
    ∧ pyIntOfStr "1XX".toList = Except.error PyError.valueError :=
  ⟨rfl, rfl, rfl, rfl, rfl, rfl, rfl, rfl, rfl⟩

end ProblemDetails
